import Mathlib

/-!
Shallow embedding of the session lifecycle manager of `src/app/page.tsx`
(the `WhatsAppSessionGenerator` component).

The component's React state is modelled by `PageState`:
  * `sessions`      — the `useState<SessionData[]>([])` list, newest first;
  * `phoneNumber`   — the `useState("")` phone-number input;
  * `isGenerating`  — the `useState(false)` busy flag;
  * `timers`        — the queue of `setTimeout` callbacks still pending,
                      each identified by the session id the closure captured
                      (the source never calls `clearTimeout`, so nothing is
                      ever removed from this queue except by firing);
  * `toasts`        — the log of `toast(...)` calls, in call order (the
                      toast system is the external observer the component
                      reports success and failure to).

Nondeterministic inputs (`Date.now()`, `Math.random()`) are passed as
explicit parameters to the operations that consume them.  Each operation
models one completed invocation of the corresponding source function (the
`await` delays inside the creation functions only pause; the net state
change of a completed call is what is embedded).
-/

/-- The `status` field of `SessionData`:
`"disconnected" | "connecting" | "connected"` (src line 16). -/
inductive Status where
  | disconnected
  | connecting
  | connected
deriving DecidableEq, Repr

/-- The `SessionData` interface (src lines 14–21).  The source represents the
authentication artifact as optional `qrCode` / `pairCode` / `phoneNumber`
fields; the embedding keeps that representation.  `createdAt` is a timestamp
(`new Date()`), modelled as a `Nat`. -/
structure SessionData where
  sessionId : String
  status : Status
  qrCode : Option String
  pairCode : Option String
  phoneNumber : Option String
  createdAt : Nat
deriving DecidableEq, Repr

/-- One `toast({title, description, variant?})` call; `destructive` records
whether `variant: "destructive"` was passed. -/
structure Toast where
  title : String
  description : String
  destructive : Bool
deriving DecidableEq, Repr

/-- The component's whole mutable state plus the pending-timer queue and the
toast log (see the module comment). -/
structure PageState where
  sessions : List SessionData
  phoneNumber : String
  isGenerating : Bool
  timers : List String
  toasts : List Toast
deriving DecidableEq, Repr

/-- The state right after mount: `useState([])`, `useState("")`,
`useState(false)`, no timers scheduled, no toasts shown. -/
def initialState : PageState :=
  { sessions := [], phoneNumber := "", isGenerating := false,
    timers := [], toasts := [] }

/-- `generateSessionId` (src lines 30–34): builds
`wa_session_${timestamp}_${random}` from `Date.now()` and a random base-36
suffix; both are parameters here. -/
def generateSessionId (timestamp : Nat) (random : String) : String :=
  "wa_session_" ++ toString timestamp ++ "_" ++ random

/-- The base64 alphabet used by the browser's `btoa`. -/
def base64Alphabet : List Char :=
  "ABCDEFGHIJKLMNOPQRSTUVWXYZabcdefghijklmnopqrstuvwxyz0123456789+/".toList

/-- Character of the base64 alphabet at index `i` (indices fed to it are
always < 64). -/
def base64Char (i : Nat) : Char :=
  base64Alphabet.getD i 'A'

/-- Standard base64 of a byte list (three bytes become four output
characters; a final group of one or two bytes is padded with `=`). -/
def base64EncodeBytes : List Nat → List Char
  | [] => []
  | [a] => [base64Char (a / 4), base64Char (a % 4 * 16), '=', '=']
  | [a, b] =>
      [base64Char (a / 4), base64Char (a % 4 * 16 + b / 16),
       base64Char (b % 16 * 4), '=']
  | a :: b :: c :: rest =>
      base64Char (a / 4) :: base64Char (a % 4 * 16 + b / 16) ::
      base64Char (b % 16 * 4 + c / 64) :: base64Char (c % 64) ::
      base64EncodeBytes rest

/-- The UTF-8 bytes of one character (all characters fed to `btoa` here are
ASCII, but the encoding is total). -/
def utf8Bytes (c : Char) : List Nat :=
  let n := c.toNat
  if n < 128 then [n]
  else if n < 2048 then [192 + n / 64, 128 + n % 64]
  else if n < 65536 then
    [224 + n / 4096, 128 + n / 64 % 64, 128 + n % 64]
  else
    [240 + n / 262144, 128 + n / 4096 % 64, 128 + n / 64 % 64, 128 + n % 64]

/-- The browser `btoa` builtin on the UTF-8 bytes of its argument. -/
def btoa (s : String) : String :=
  String.mk (base64EncodeBytes (s.toList.map utf8Bytes).flatten)

/-- `generateQRCode` (src lines 37–40): base64 of
`2@${random1},${random2},${Date.now()}`; the two random base-36 strings and
the timestamp are parameters. -/
def generateQRCode (r1 r2 : String) (timestamp : Nat) : String :=
  btoa ("2@" ++ r1 ++ "," ++ r2 ++ "," ++ toString timestamp)

/-- The pairing-code alphabet `"ABCDEFGHIJKLMNOPQRSTUVWXYZ0123456789"`
(src line 44). -/
def pairChars : List Char :=
  "ABCDEFGHIJKLMNOPQRSTUVWXYZ0123456789".toList

/-- The chunking performed by `result.match(/.{1,4}/g)` (src line 49): greedy
groups of four characters, with a final group of one to three characters when
the length is not a multiple of four; `[]` models the `null` returned on the
empty string. -/
def chunksOf4 : List Char → List (List Char)
  | [] => []
  | a :: b :: c :: d :: rest => [a, b, c, d] :: chunksOf4 rest
  | l => [l]

/-- JavaScript `Array.prototype.join("-")` on a list of strings. -/
def joinHyphen : List String → String
  | [] => ""
  | [x] => x
  | x :: xs => x ++ "-" ++ joinHyphen xs

/-- `generatePairCode` (src lines 43–50): eight characters drawn from
`pairChars` at indices `Math.floor(Math.random() * chars.length)` — modelled
by `pick : Fin 8 → Fin 36` — then chunked into groups of four and joined with
a hyphen; the `|| result` fallback covers the `null` match on an empty
string, which cannot arise here but is embedded faithfully. -/
def generatePairCode (pick : Fin 8 → Fin 36) : String :=
  let c : Fin 8 → Char := fun k => pairChars.getD (pick k) 'A'
  let result : List Char := [c 0, c 1, c 2, c 3, c 4, c 5, c 6, c 7]
  match chunksOf4 result with
  | [] => String.mk result
  | cs => joinHyphen (cs.map String.mk)

/-- The toast shown by `createQRSession` on success (src lines 69–72). -/
def qrCreatedToast : Toast :=
  { title := "QR Session Created",
    description := "Scan the QR code with WhatsApp to connect",
    destructive := false }

/-- The toast shown by `createPairSession` when the phone number is missing
(src lines 87–91). -/
def phoneRequiredToast : Toast :=
  { title := "Phone Number Required",
    description := "Please enter a phone number for pairing",
    destructive := true }

/-- The toast shown by `createPairSession` on success (src lines 112–115). -/
def pairCreatedToast : Toast :=
  { title := "Pair Code Generated",
    description := "Enter the code in WhatsApp Settings > Linked Devices",
    destructive := false }

/-- The toast shown by `simulateConnection` (src lines 142–145). -/
def connectedToast : Toast :=
  { title := "Connected!",
    description := "WhatsApp session is now active",
    destructive := false }

/-- The toast shown by `deleteSession` (src lines 151–154). -/
def deletedToast : Toast :=
  { title := "Session Deleted",
    description := "Session has been removed",
    destructive := false }

/-- The record `createQRSession` builds (`newSession`, src lines 59–64): a
fresh id and QR payload, status `connecting`, no pairing fields.
`tsId`, `tsQr`, `tsCreated` are the three separate `Date.now()` reads of that
call; `rand`, `r1`, `r2` its `Math.random()` suffixes. -/
def newQRRecord (tsId tsQr tsCreated : Nat) (rand r1 r2 : String) :
    SessionData :=
  { sessionId := generateSessionId tsId rand,
    status := Status.connecting,
    qrCode := some (generateQRCode r1 r2 tsQr),
    pairCode := none,
    phoneNumber := none,
    createdAt := tsCreated }

/-- One completed `createQRSession` call (src lines 53–82): builds
`newQRRecord`, prepends it to `sessions`, clears the busy flag, shows the
success toast, and schedules the 30 s timeout callback capturing the new id
(appended to `timers`). -/
def createQRSession (tsId tsQr tsCreated : Nat) (rand r1 r2 : String)
    (s : PageState) : PageState :=
  let newSession : SessionData := newQRRecord tsId tsQr tsCreated rand r1 r2
  { s with
    sessions := newSession :: s.sessions,
    isGenerating := false,
    toasts := s.toasts ++ [qrCreatedToast],
    timers := s.timers ++ [newSession.sessionId] }

/-- The error kind of the spec's `ValidationError`. -/
inductive ValidationError where
  | missingPhoneNumber
deriving DecidableEq, Repr

/-- The record `createPairSession` builds (`newSession`, src lines 100–106):
a fresh id and pairing code, the entered phone number, status `connecting`,
no QR field. -/
def newPairRecord (tsId tsCreated : Nat) (rand : String)
    (pick : Fin 8 → Fin 36) (phone : String) : SessionData :=
  { sessionId := generateSessionId tsId rand,
    status := Status.connecting,
    qrCode := none,
    pairCode := some (generatePairCode pick),
    phoneNumber := some phone,
    createdAt := tsCreated }

/-- One completed `createPairSession` call (src lines 85–125).  If the phone
number is empty (`!phoneNumber`), it shows the destructive toast and returns
before doing anything else — the early return is surfaced as
`some ValidationError.missingPhoneNumber`.  Otherwise it builds
`newPairRecord` carrying the entered phone number, prepends it, clears the
busy flag and the input, shows the success toast, and schedules the 60 s
timeout callback (appended to `timers`). -/
def createPairSession (tsId tsCreated : Nat) (rand : String)
    (pick : Fin 8 → Fin 36) (s : PageState) :
    PageState × Option ValidationError :=
  if s.phoneNumber = "" then
    ({ s with toasts := s.toasts ++ [phoneRequiredToast] },
     some ValidationError.missingPhoneNumber)
  else
    let newSession : SessionData :=
      newPairRecord tsId tsCreated rand pick s.phoneNumber
    ({ s with
       sessions := newSession :: s.sessions,
       isGenerating := false,
       phoneNumber := "",
       toasts := s.toasts ++ [pairCreatedToast],
       timers := s.timers ++ [newSession.sessionId] }, none)

/-- The `onChange` handler of the phone input (src line 233):
`setPhoneNumber(e.target.value)`. -/
def typePhoneNumber (p : String) (s : PageState) : PageState :=
  { s with phoneNumber := p }

/-- `simulateConnection` (src lines 137–146): maps over `sessions`, setting
`status` to `connected` on every record whose id matches, and shows the
success toast.  There is no check that the id exists and no error path. -/
def simulateConnection (sessionId : String) (s : PageState) : PageState :=
  { s with
    sessions := s.sessions.map (fun session =>
      if session.sessionId = sessionId then
        { session with status := Status.connected }
      else session),
    toasts := s.toasts ++ [connectedToast] }

/-- `deleteSession` (src lines 149–155): filters the record out of
`sessions` and shows the success toast.  Nothing is removed from `timers`
(the source never calls `clearTimeout`), there is no existence check and no
error path. -/
def deleteSession (sessionId : String) (s : PageState) : PageState :=
  { s with
    sessions := s.sessions.filter (fun session =>
      session.sessionId ≠ sessionId),
    toasts := s.toasts ++ [deletedToast] }

/-- The timeout callback scheduled by both creation functions (src lines
75–81 and 118–124): maps over the current `sessions`, setting `status` to
`disconnected` on every record whose id matches the captured id —
unconditionally, with no check of the current status.  Firing dequeues the
timer itself but shows no toast. -/
def fireTimeout (sessionId : String) (s : PageState) : PageState :=
  { s with
    sessions := s.sessions.map (fun session =>
      if session.sessionId = sessionId then
        { session with status := Status.disconnected }
      else session),
    timers := s.timers.erase sessionId }

/-- The session list the display layer reads (src line 256 maps over
`sessions` directly): the registry's `list()` operation. -/
def listActive (s : PageState) : List SessionData :=
  s.sessions

/-- One caller-visible operation on the component, with the
nondeterministic inputs (`Date.now()` reads, `Math.random()` draws) each
operation consumes recorded in its arguments.  `confirm` is the
`simulateConnection` handler, `removeSession` the `deleteSession` handler,
`fire` a pending timeout callback firing, and `typePhone` the phone-input
`onChange` handler. -/
inductive Op where
  | createQR (tsId tsQr tsCreated : Nat) (rand r1 r2 : String)
  | createPair (tsId tsCreated : Nat) (rand : String) (pick : Fin 8 → Fin 36)
  | typePhone (p : String)
  | confirm (sessionId : String)
  | removeSession (sessionId : String)
  | fire (sessionId : String)

/-- The state change of one operation. -/
def step : Op → PageState → PageState
  | Op.createQR tsId tsQr tsCreated rand r1 r2, s =>
      createQRSession tsId tsQr tsCreated rand r1 r2 s
  | Op.createPair tsId tsCreated rand pick, s =>
      (createPairSession tsId tsCreated rand pick s).1
  | Op.typePhone p, s => typePhoneNumber p s
  | Op.confirm sessionId, s => simulateConnection sessionId s
  | Op.removeSession sessionId, s => deleteSession sessionId s
  | Op.fire sessionId, s => fireTimeout sessionId s

/-- Run a sequence of operations, oldest first. -/
def run : List Op → PageState → PageState
  | [], s => s
  | op :: ops, s => run ops (step op s)

/-- Operations belonging to the creation phase: the two creation handlers
and typing into the phone input (which never touches `sessions`). -/
def Op.isCreation : Op → Bool
  | Op.createQR _ _ _ _ _ _ => true
  | Op.createPair _ _ _ _ => true
  | Op.typePhone _ => true
  | _ => false

/-- The session records an operation inserts into the registry: one for each
successful creation, none otherwise. -/
def newRecords : Op → PageState → List SessionData
  | Op.createQR tsId tsQr tsCreated rand r1 r2, _ =>
      [newQRRecord tsId tsQr tsCreated rand r1 r2]
  | Op.createPair tsId tsCreated rand pick, s =>
      if s.phoneNumber = "" then []
      else [newPairRecord tsId tsCreated rand pick s.phoneNumber]
  | _, _ => []

/-- The records created by a sequence of operations, in creation order. -/
def createdBy : List Op → PageState → List SessionData
  | [], _ => []
  | op :: ops, s => newRecords op s ++ createdBy ops (step op s)

/-- A session holds exactly one authentication-artifact variant: a QR
payload without a pairing code, or a pairing code without a QR payload. -/
def exactlyOneArtifact (t : SessionData) : Bool :=
  (t.qrCode.isSome && t.pairCode.isNone) ||
  (t.qrCode.isNone && t.pairCode.isSome)

/-- Everything of a session except its `status`: identity and artifact.
Operations other than creation and deletion must preserve this view. -/
def artifactView (t : SessionData) :
    String × Option String × Option String × Option String × Nat :=
  (t.sessionId, t.qrCode, t.pairCode, t.phoneNumber, t.createdAt)

/-- Membership in the pairing-code alphabet `[A-Z0-9]`. -/
def isPairChar (ch : Char) : Bool := pairChars.contains ch

/-- The pattern `[A-Z0-9]{4}-[A-Z0-9]{4}`: nine characters, the fifth a
hyphen, the rest drawn from the pairing alphabet. -/
def matchesPairPattern (s : String) : Bool :=
  match s.toList with
  | [a1, a2, a3, a4, h, b1, b2, b3, b4] =>
      isPairChar a1 && isPairChar a2 && isPairChar a3 && isPairChar a4 &&
      (h == '-') &&
      isPairChar b1 && isPairChar b2 && isPairChar b3 && isPairChar b4
  | _ => false

/-- The succession of states a given session is observed in over a list of
snapshots (snapshots where the session is absent contribute nothing). -/
def observedStatuses (sid : String) (states : List PageState) : List Status :=
  states.filterMap (fun s =>
    (s.sessions.find? (fun t => t.sessionId = sid)).map (fun t => t.status))

/-! ## Helper lemmas -/

/-- Mapping a per-id update over a list that holds no session with that id
changes nothing. -/
theorem map_matchId_eq_of_absent (sid : String) (f : SessionData → SessionData)
    (l : List SessionData) (h : ∀ t ∈ l, t.sessionId ≠ sid) :
    (l.map fun t => if t.sessionId = sid then f t else t) = l := by
  induction l with
  | nil => rfl
  | cons a l ih =>
    simp only [List.map_cons, List.cons.injEq]
    constructor
    · rw [if_neg (h a (List.mem_cons_self a l))]
    · exact ih fun t ht => h t (List.mem_cons_of_mem a ht)

/-- Filtering out an id that occurs nowhere changes nothing. -/
theorem filter_neId_eq_of_absent (sid : String) (l : List SessionData)
    (h : ∀ t ∈ l, t.sessionId ≠ sid) :
    (l.filter fun t => t.sessionId ≠ sid) = l := by
  induction l with
  | nil => rfl
  | cons a l ih =>
    rw [List.filter_cons]
    rw [if_pos (by simpa using h a (List.mem_cons_self a l))]
    rw [ih fun t ht => h t (List.mem_cons_of_mem a ht)]

/-- Every survivor of the delete filter has a different id. -/
theorem mem_filter_neId (sid : String) (l : List SessionData)
    (t : SessionData) (ht : t ∈ l.filter fun u => u.sessionId ≠ sid) :
    t.sessionId ≠ sid := by
  have := (List.mem_filter.mp ht).2
  simpa using this

/-- After `deleteSession sid`, no session in the registry carries `sid`. -/
theorem deleteSession_absent (sid : String) (s : PageState) :
    ∀ t ∈ (deleteSession sid s).sessions, t.sessionId ≠ sid := by
  intro t ht
  exact mem_filter_neId sid s.sessions t ht

/-! ## C1 — the timeout callback and an already-confirmed session -/

/-- C1: refuted on the code.  The claim says the timeout transitions a
session to `Disconnected` only if it is still `Connecting` at fire time, so
creating a scan session, confirming it immediately and letting the timeout
fire leaves it `Connected`.  The source's callback (src lines 75–81) sets
`status: "disconnected"` on the matching id unconditionally: here a session
that is `Connected` when the timer fires (middle state shown by the first
conjunct) ends up `Disconnected` (second conjunct), not `Connected`. -/
theorem confirmedSessionStillTimesOut :
    (simulateConnection (generateSessionId 1 "r")
        (createQRSession 1 2 3 "r" "x" "y" initialState)).sessions.map
          (fun t => t.status) = [Status.connected] ∧
    (fireTimeout (generateSessionId 1 "r")
        (simulateConnection (generateSessionId 1 "r")
          (createQRSession 1 2 3 "r" "x" "y" initialState))).sessions.map
            (fun t => t.status) = [Status.disconnected] := by
  constructor <;> decide

/-! ## C2 — state monotonicity -/

/-- C2: refuted on the code.  Running create, confirm, timeout-fire on one
scan session yields the observed state sequence
`[Connecting, Connected, Disconnected]`, which is a subsequence of neither
`[Connecting, Connected]` nor `[Connecting, Disconnected]`: the transition
`Connected → Disconnected` does occur, through the unconditional timeout
callback (src lines 75–81). -/
theorem monotonicityViolated :
    observedStatuses (generateSessionId 1 "r")
      (let s1 := createQRSession 1 2 3 "r" "x" "y" initialState
       let s2 := simulateConnection (generateSessionId 1 "r") s1
       let s3 := fireTimeout (generateSessionId 1 "r") s2
       [s1, s2, s3]) =
      [Status.connecting, Status.connected, Status.disconnected] ∧
    ¬ List.Sublist [Status.connecting, Status.connected, Status.disconnected]
        [Status.connecting, Status.connected] ∧
    ¬ List.Sublist [Status.connecting, Status.connected, Status.disconnected]
        [Status.connecting, Status.disconnected] := by
  refine ⟨by decide, ?_, ?_⟩ <;> decide

/-! ## C3 — deletion and the pending timer -/

/-- C3 counterexample: deleting a session does not cancel its pending timer.
After creating a scan session (whose timer is queued, second conjunct) and
deleting it before the deadline, the timer is still queued (first conjunct)
— the source has no `clearTimeout`, so nothing is ever removed from the
pending queue by `deleteSession`. -/
theorem deleteLeavesTimerPending :
    (deleteSession (generateSessionId 1 "r")
        (createQRSession 1 2 3 "r" "x" "y" initialState)).timers =
      [generateSessionId 1 "r"] ∧
    (createQRSession 1 2 3 "r" "x" "y" initialState).timers =
      [generateSessionId 1 "r"] := by
  constructor <;> decide

/-- C3 (amended): the timer survives deletion, but its later firing is
observably a no-op on the registry: firing the stale timer right after the
deletion changes no remaining session (its per-id map matches nothing,
since `deleteSession` removed every record with that id) and neither the
toast log, the phone input nor the busy flag. -/
theorem staleTimerIsNoOpAfterDelete (sid : String) (s : PageState) :
    (fireTimeout sid (deleteSession sid s)).sessions =
      (deleteSession sid s).sessions ∧
    (fireTimeout sid (deleteSession sid s)).toasts =
      (deleteSession sid s).toasts ∧
    (fireTimeout sid (deleteSession sid s)).phoneNumber =
      (deleteSession sid s).phoneNumber ∧
    (fireTimeout sid (deleteSession sid s)).isGenerating =
      (deleteSession sid s).isGenerating := by
  refine ⟨?_, rfl, rfl, rfl⟩
  show ((deleteSession sid s).sessions.map fun t =>
      if t.sessionId = sid then { t with status := Status.disconnected }
      else t) = (deleteSession sid s).sessions
  exact map_matchId_eq_of_absent sid _ _ (deleteSession_absent sid s)

/-- Witness for `staleTimerIsNoOpAfterDelete` at a concrete state. -/
theorem staleTimerIsNoOpAfterDelete_witness :
    (fireTimeout (generateSessionId 1 "r")
        (deleteSession (generateSessionId 1 "r")
          (createQRSession 1 2 3 "r" "x" "y" initialState))).sessions =
      (deleteSession (generateSessionId 1 "r")
        (createQRSession 1 2 3 "r" "x" "y" initialState)).sessions :=
  (staleTimerIsNoOpAfterDelete (generateSessionId 1 "r")
    (createQRSession 1 2 3 "r" "x" "y" initialState)).1

/-! ## C4 — operations on an absent id -/

/-- C4 counterexample: on an id absent from the registry, the confirm
operation (`simulateConnection`) and the delete operation (`deleteSession`)
do not fail with anything — each returns normally, leaves the session list
empty, and emits its usual success toast; a second delete of the same absent
id again succeeds silently, appending a second success toast.  The source
has no existence check and no error path in either handler (src lines
137–146 and 149–155). -/
theorem absentIdOpsReportSuccess :
    simulateConnection "ghost" initialState =
      { initialState with toasts := [connectedToast] } ∧
    deleteSession "ghost" initialState =
      { initialState with toasts := [deletedToast] } ∧
    deleteSession "ghost" (deleteSession "ghost" initialState) =
      { initialState with toasts := [deletedToast, deletedToast] } := by
  refine ⟨?_, ?_, ?_⟩ <;> decide

/-- C4 (amended): for any state holding no session with the given id,
confirm and delete are silent no-ops on the registry that still report
success: each returns the state unchanged except for its success toast, and
a second delete behaves identically, so no `NotFound` is ever signalled. -/
theorem absentIdOpsAreSilentNoOps (sid : String) (s : PageState)
    (h : ∀ t ∈ s.sessions, t.sessionId ≠ sid) :
    simulateConnection sid s =
      { s with toasts := s.toasts ++ [connectedToast] } ∧
    deleteSession sid s =
      { s with toasts := s.toasts ++ [deletedToast] } ∧
    deleteSession sid (deleteSession sid s) =
      { s with toasts := s.toasts ++ [deletedToast, deletedToast] } := by
  have hmap := map_matchId_eq_of_absent sid
    (fun t => { t with status := Status.connected }) s.sessions h
  have hfil := filter_neId_eq_of_absent sid s.sessions h
  refine ⟨?_, ?_, ?_⟩
  · simp [simulateConnection, hmap]
  · simp only [deleteSession]
    rw [hfil]
  · simp only [deleteSession]
    rw [hfil, hfil]
    simp [List.append_assoc]

/-- Witness for `absentIdOpsAreSilentNoOps` at a concrete state. -/
theorem absentIdOpsAreSilentNoOps_witness :
    simulateConnection "ghost" (typePhoneNumber "p" initialState) =
      { typePhoneNumber "p" initialState with toasts := [connectedToast] } :=
  (absentIdOpsAreSilentNoOps "ghost" (typePhoneNumber "p" initialState)
    (by decide)).1

/-! ## C5 — pairing-creation validation -/

/-- C5: creating a pairing session with an empty phone number fails with
the `MissingPhoneNumber` validation error (the early-return branch of
src lines 86–93) and produces no session; with a non-empty phone number it
succeeds (no error), prepending exactly one new record whose pairing
artifact carries exactly the entered phone number. -/
theorem pairingValidation (tsId tsCreated : Nat) (rand : String)
    (pick : Fin 8 → Fin 36) (s : PageState) :
    (s.phoneNumber = "" →
      (createPairSession tsId tsCreated rand pick s).2 =
        some ValidationError.missingPhoneNumber ∧
      (createPairSession tsId tsCreated rand pick s).1.sessions =
        s.sessions) ∧
    (s.phoneNumber ≠ "" →
      (createPairSession tsId tsCreated rand pick s).2 = none ∧
      (createPairSession tsId tsCreated rand pick s).1.sessions =
        newPairRecord tsId tsCreated rand pick s.phoneNumber ::
          s.sessions ∧
      (newPairRecord tsId tsCreated rand pick s.phoneNumber).phoneNumber =
        some s.phoneNumber) := by
  constructor <;> intro h <;> simp [createPairSession, h, newPairRecord]

/-- Witness for `pairingValidation`: the empty input fails with
`MissingPhoneNumber`; the input `+15551234567` succeeds. -/
theorem pairingValidation_witness :
    (createPairSession 1 2 "r" (fun _ => 0) initialState).2 =
      some ValidationError.missingPhoneNumber ∧
    (createPairSession 1 2 "r" (fun _ => 0)
        (typePhoneNumber "+15551234567" initialState)).2 = none := by
  constructor
  · exact ((pairingValidation 1 2 "r" (fun _ => 0) initialState).1
      (by decide)).1
  · exact ((pairingValidation 1 2 "r" (fun _ => 0)
      (typePhoneNumber "+15551234567" initialState)).2 (by decide)).1

/-! ## C6 — pairing-code shape -/

/-- Every index drawn from the alphabet yields an alphabet character. -/
theorem pairCharOfIndex :
    ∀ i : Fin 36, isPairChar (pairChars[(i : Nat)]?.getD 'A') = true := by
  decide

/-- C6: every value `generatePairCode` returns matches
`[A-Z0-9]{4}-[A-Z0-9]{4}` — eight characters drawn from the alphabet, in
two groups of four joined by a single hyphen — whatever the eight random
draws were. -/
theorem pairCodeShape (pick : Fin 8 → Fin 36) :
    matchesPairPattern (generatePairCode pick) = true := by
  simp only [generatePairCode, chunksOf4, joinHyphen, List.map]
  simp only [matchesPairPattern]
  simp [pairCharOfIndex, String.toList]

/-- Witness for `pairCodeShape` at a concrete draw. -/
theorem pairCodeShape_witness :
    matchesPairPattern (generatePairCode (fun _ => 0)) = true :=
  pairCodeShape (fun _ => 0)

/-! ## C7 — listing order -/

/-- A creation-phase operation prepends exactly its new records. -/
theorem stepCreation_sessions (op : Op) (s : PageState)
    (h : op.isCreation = true) :
    (step op s).sessions = newRecords op s ++ s.sessions := by
  cases op with
  | createQR a b c r r1 r2 => simp [step, createQRSession, newRecords]
  | createPair a b r pick =>
    by_cases hp : s.phoneNumber = "" <;>
      simp [step, createPairSession, newRecords, hp]
  | typePhone p => simp [step, typePhoneNumber, newRecords]
  | confirm sid => simp [Op.isCreation] at h
  | removeSession sid => simp [Op.isCreation] at h
  | fire sid => simp [Op.isCreation] at h

/-- An operation creates at most one record, so the created list is its own
reverse. -/
theorem newRecords_reverse (op : Op) (s : PageState) :
    (newRecords op s).reverse = newRecords op s := by
  cases op with
  | createPair a b r pick =>
    by_cases hp : s.phoneNumber = "" <;> simp [newRecords, hp]
  | createQR a b c r r1 r2 => simp [newRecords]
  | typePhone p => rfl
  | confirm sid => rfl
  | removeSession sid => rfl
  | fire sid => rfl

/-- C7: the list the display layer reads is all live sessions newest first.
For every sequence of creation-phase operations (creations and typing into
the phone input, no deletions) run from any state, `listActive` equals the
records created, most recent first, in front of what was already listed;
in particular creating sessions A then B then C from the start state lists
their ids as `[C, B, A]`. -/
theorem listingOrderNewestFirst :
    (∀ (ops : List Op) (s : PageState),
      (∀ op ∈ ops, op.isCreation = true) →
      listActive (run ops s) = (createdBy ops s).reverse ++ listActive s) ∧
    (run [Op.createQR 1 1 1 "a" "xa" "ya",
          Op.createQR 2 2 2 "b" "xb" "yb",
          Op.createQR 3 3 3 "c" "xc" "yc"] initialState).sessions.map
        (fun t => t.sessionId) =
      [generateSessionId 3 "c", generateSessionId 2 "b",
       generateSessionId 1 "a"] := by
  constructor
  · intro ops
    induction ops with
    | nil => intro s _; simp [run, createdBy, listActive]
    | cons op ops ih =>
      intro s h
      have hop : op.isCreation = true := h op (List.mem_cons_self op ops)
      show listActive (run ops (step op s)) = _
      rw [ih (step op s) fun o ho => h o (List.mem_cons_of_mem op ho)]
      show _ = (newRecords op s ++ createdBy ops (step op s)).reverse ++ _
      rw [List.reverse_append, newRecords_reverse]
      rw [listActive, stepCreation_sessions op s hop]
      simp [listActive, List.append_assoc]
  · decide

/-- Witness for `listingOrderNewestFirst` on a concrete creation run. -/
theorem listingOrderNewestFirst_witness :
    listActive (run [Op.createQR 1 1 1 "a" "xa" "ya"] initialState) =
      (createdBy [Op.createQR 1 1 1 "a" "xa" "ya"] initialState).reverse ++
        listActive initialState :=
  listingOrderNewestFirst.1 [Op.createQR 1 1 1 "a" "xa" "ya"] initialState
    (by decide)

/-! ## C8 — one artifact variant, fixed at creation -/

/-- The per-id status update of the confirm and timeout handlers never
changes identity or artifact fields. -/
theorem artifactView_if_status (sid : String) (st : Status)
    (t : SessionData) :
    artifactView (if t.sessionId = sid then { t with status := st }
      else t) = artifactView t := by
  split <;> rfl

/-- The per-id status update preserves the exactly-one-artifact property. -/
theorem exactlyOne_if_status (sid : String) (st : Status)
    (t : SessionData) :
    exactlyOneArtifact (if t.sessionId = sid then { t with status := st }
      else t) = exactlyOneArtifact t := by
  split <;> rfl

/-- Each single operation preserves the exactly-one-artifact invariant. -/
theorem stepPreservesExactlyOne (op : Op) (s : PageState)
    (h : ∀ t ∈ s.sessions, exactlyOneArtifact t = true) :
    ∀ t ∈ (step op s).sessions, exactlyOneArtifact t = true := by
  cases op with
  | createQR a b c r r1 r2 =>
    intro t ht
    rcases List.mem_cons.mp ht with heq | hmem
    · subst heq; simp [exactlyOneArtifact, newQRRecord]
    · exact h t hmem
  | createPair a b r pick =>
    intro t ht
    by_cases hp : s.phoneNumber = ""
    · simp [step, createPairSession, hp] at ht
      exact h t ht
    · simp [step, createPairSession, hp] at ht
      rcases ht with heq | hmem
      · subst heq; simp [exactlyOneArtifact, newPairRecord]
      · exact h t hmem
  | typePhone p => exact h
  | confirm sid =>
    intro t ht
    rcases List.mem_map.mp ht with ⟨u, hu, heq⟩
    rw [← heq, exactlyOne_if_status]
    exact h u hu
  | removeSession sid =>
    intro t ht
    exact h t (List.mem_of_mem_filter ht)
  | fire sid =>
    intro t ht
    rcases List.mem_map.mp ht with ⟨u, hu, heq⟩
    rw [← heq, exactlyOne_if_status]
    exact h u hu

/-- Runs preserve the exactly-one-artifact invariant. -/
theorem runPreservesExactlyOne (ops : List Op) (s : PageState)
    (h : ∀ t ∈ s.sessions, exactlyOneArtifact t = true) :
    ∀ t ∈ (run ops s).sessions, exactlyOneArtifact t = true := by
  induction ops generalizing s with
  | nil => exact h
  | cons op ops ih => exact ih (step op s) (stepPreservesExactlyOne op s h)

/-- C8: in every state reachable from the start state, every session holds
exactly one authentication-artifact variant — a QR payload or a pairing
code, never both, never neither (first conjunct) — and the variant is fixed
at creation: no single operation changes any existing session's identity or
artifact fields; after any operation the artifact views present are the
newly created ones followed by (a sublist of, since deletion may drop
records) the views already present (second conjunct). -/
theorem artifactsFixedAtCreation :
    (∀ (ops : List Op), ∀ t ∈ (run ops initialState).sessions,
      exactlyOneArtifact t = true) ∧
    (∀ (op : Op) (s : PageState),
      List.Sublist ((step op s).sessions.map artifactView)
        ((newRecords op s).map artifactView ++
          s.sessions.map artifactView)) := by
  constructor
  · intro ops
    exact runPreservesExactlyOne ops initialState (by simp [initialState])
  · intro op s
    cases op with
    | createQR a b c r r1 r2 =>
      simp [step, createQRSession, newRecords]
    | createPair a b r pick =>
      by_cases hp : s.phoneNumber = "" <;>
        simp [step, createPairSession, newRecords, hp]
    | typePhone p =>
      simp [step, typePhoneNumber, newRecords]
    | confirm sid =>
      have heq : (step (Op.confirm sid) s).sessions.map artifactView =
          s.sessions.map artifactView := by
        show (s.sessions.map _).map artifactView = _
        rw [List.map_map]
        exact List.map_congr_left fun t _ =>
          artifactView_if_status sid Status.connected t
      rw [heq]
      simp only [newRecords, List.map_nil, List.nil_append]
      exact List.Sublist.refl _
    | removeSession sid =>
      show List.Sublist ((s.sessions.filter _).map artifactView) _
      simp only [newRecords, List.map_nil, List.nil_append]
      exact List.Sublist.map artifactView (List.filter_sublist s.sessions)
    | fire sid =>
      have heq : (step (Op.fire sid) s).sessions.map artifactView =
          s.sessions.map artifactView := by
        show (s.sessions.map _).map artifactView = _
        rw [List.map_map]
        exact List.map_congr_left fun t _ =>
          artifactView_if_status sid Status.disconnected t
      rw [heq]
      simp only [newRecords, List.map_nil, List.nil_append]
      exact List.Sublist.refl _

/-- Witness for `artifactsFixedAtCreation` on a concrete run. -/
theorem artifactsFixedAtCreation_witness :
    exactlyOneArtifact (newQRRecord 1 2 3 "r" "x" "y") = true :=
  artifactsFixedAtCreation.1 [Op.createQR 1 2 3 "r" "x" "y"]
    (newQRRecord 1 2 3 "r" "x" "y") (by decide)

/-! ## C9 — a timer firing affects at most its own session -/

/-- C9: when the timeout for a given id fires, every session at any position
whose id differs is exactly the same record afterwards, the number of
sessions is unchanged, and the phone input, busy flag and toast log are
untouched — the firing affects at most the sessions carrying the captured
id. -/
theorem timerFiringFrame (sid : String) (s : PageState) :
    (fireTimeout sid s).sessions.length = s.sessions.length ∧
    (fireTimeout sid s).phoneNumber = s.phoneNumber ∧
    (fireTimeout sid s).isGenerating = s.isGenerating ∧
    (fireTimeout sid s).toasts = s.toasts ∧
    (∀ (i : Nat) (t : SessionData), s.sessions[i]? = some t →
      t.sessionId ≠ sid → (fireTimeout sid s).sessions[i]? = some t) := by
  refine ⟨by simp [fireTimeout], rfl, rfl, rfl, ?_⟩
  intro i t ht hne
  show (s.sessions.map _)[i]? = some t
  rw [List.getElem?_map, ht]
  simp [hne]

/-- Witness for `timerFiringFrame`: a timer for a different id leaves the
one existing session untouched. -/
theorem timerFiringFrame_witness :
    (fireTimeout "other"
        (createQRSession 1 2 3 "r" "x" "y" initialState)).sessions[0]? =
      some (newQRRecord 1 2 3 "r" "x" "y") :=
  (timerFiringFrame "other"
      (createQRSession 1 2 3 "r" "x" "y" initialState)).2.2.2.2 0
    (newQRRecord 1 2 3 "r" "x" "y") (by decide) (by decide)

/-! ## C10 — validation failure has no other effect -/

/-- C10: invoking pairing creation with an empty phone number returns before
performing any other effect: the resulting state differs only by the
destructive toast; the session list, the pending timers, the phone input and
the busy flag are exactly as before; and the result does not depend on any
of the timestamp or randomness inputs — no session id or pairing code is
drawn from them. -/
theorem emptyPhoneCreateNoEffect (tsId tsCreated : Nat) (rand : String)
    (pick : Fin 8 → Fin 36) (s : PageState) (h : s.phoneNumber = "") :
    (createPairSession tsId tsCreated rand pick s).1 =
      { s with toasts := s.toasts ++ [phoneRequiredToast] } ∧
    (createPairSession tsId tsCreated rand pick s).1.sessions =
      s.sessions ∧
    (createPairSession tsId tsCreated rand pick s).1.timers = s.timers ∧
    (createPairSession tsId tsCreated rand pick s).1.phoneNumber =
      s.phoneNumber ∧
    (∀ (tsId2 tsCreated2 : Nat) (rand2 : String)
        (pick2 : Fin 8 → Fin 36),
      createPairSession tsId2 tsCreated2 rand2 pick2 s =
        createPairSession tsId tsCreated rand pick s) := by
  refine ⟨?_, ?_, ?_, ?_, ?_⟩ <;> simp [createPairSession, h]

/-- Witness for `emptyPhoneCreateNoEffect` at the start state. -/
theorem emptyPhoneCreateNoEffect_witness :
    (createPairSession 1 2 "r" (fun _ => 0) initialState).1 =
      { initialState with toasts := [phoneRequiredToast] } := by
  have := (emptyPhoneCreateNoEffect 1 2 "r" (fun _ => 0) initialState
    (by decide)).1
  simpa [initialState] using this
